import Mathlib

/-!
Verification of the nfs-client provisioner
(src/nfs-client/cmd/nfs-client-provisioner/provisioner.go).

The Go code is shallowly embedded: filesystem state is a list of existing
directory paths, the quotaer (whose xfs implementation lives outside the
provided sources) is modelled from the spec as a registry of
path/projectID/block entries plus a backend limit table, and external
failure points (mkdir, chown, rename, the quota backend calls, registry
appends) are injected through an environment of error oracles.  A Go
`error` value is an `Option String` (`none` is Go's nil error).
-/

/-- Go error values: `none` is the nil error. -/
abbrev GoErr := Option String

/-- Association-list lookup used to model Go string maps. -/
def lookupStr (m : List (String × String)) (k : String) : Option String :=
  match m.find? (fun kv => kv.1 = k) with
  | some kv => some kv.2
  | none => none

/-- Go map indexing `m[k]`: yields the zero value "" when the key is absent. -/
def goMapIndex (m : List (String × String)) (k : String) : String :=
  match lookupStr m k with
  | some v => v
  | none => ""

/-- Models Go `filepath.Join` on the clean, slash-free components the
provisioner passes to it. -/
def filepathJoin (a b : String) : String :=
  if a = "" then b else if b = "" then a else a ++ "/" ++ b

/-- Last non-empty slash-separated component of a character list, tracking
the component being read and the last completed non-empty one. -/
def lastComponent : List Char → List Char → List Char → List Char
  | [], cur, prev => if cur ≠ [] then cur else prev
  | c :: rest, cur, prev =>
    if c = '/' then lastComponent rest [] (if cur ≠ [] then cur else prev)
    else lastComponent rest (cur ++ [c]) prev

/-- Models Go `filepath.Base`: the last non-empty slash-separated component. -/
def filepathBase (s : String) : String :=
  if s = "" then "."
  else
    match lastComponent s.data [] [] with
    | [] => "/"
    | cs => String.mk cs

/-- Decimal digit parse over characters with an accumulator. -/
def parseDigitsAux : List Char → Nat → Option Nat
  | [], acc => some acc
  | c :: rest, acc =>
    if 48 ≤ c.toNat ∧ c.toNat ≤ 57 then parseDigitsAux rest (acc * 10 + (c.toNat - 48))
    else none

/-- Models Go decimal parsing of an unsigned run of digits: at least one
digit, digits only. -/
def parseDigits : List Char → Option Nat
  | [] => none
  | cs => parseDigitsAux cs 0

/-- Models Go `strconv.Atoi` on the label values used here (optional sign,
decimal digits; machine-word overflow is outside the model). -/
def goAtoi (s : String) : Except String Int :=
  let bad : Except String Int :=
    .error ("strconv.Atoi: parsing " ++ s ++ ": invalid syntax")
  match s.data with
  | '-' :: rest =>
    match parseDigits rest with
    | some n => .ok (-(n : Int))
    | none => bad
  | '+' :: rest =>
    match parseDigits rest with
    | some n => .ok (n : Int)
    | none => bad
  | cs =>
    match parseDigits cs with
    | some n => .ok (n : Int)
    | none => bad

/-- Models Go `strconv.ParseBool`. -/
def goParseBool (s : String) : Except String Bool :=
  if s = "1" ∨ s = "t" ∨ s = "T" ∨ s = "true" ∨ s = "TRUE" ∨ s = "True" then
    .ok true
  else if s = "0" ∨ s = "f" ∨ s = "F" ∨ s = "false" ∨ s = "FALSE" ∨ s = "False" then
    .ok false
  else
    .error ("strconv.ParseBool: parsing " ++ s ++ ": invalid syntax")

/-- Models the VALUE of Go `strconv.ParseUint(s, 10, 16)` when its error is
discarded: a syntax error yields 0, a range error yields 65535. -/
def goParseUint16Value (s : String) : Nat :=
  match parseDigits s.data with
  | some n => if n ≤ 65535 then n else 65535
  | none => 0

/-- Events recording which quotaer operations were invoked, in order. -/
inductive QEvent where
  | add (path limit : String)
  | set (id : Nat) (path limit : String)
  | unset (id : Nat)
  | remove (block : String) (id : Nat)
deriving DecidableEq, Repr

/-- Modelled from the spec: one persisted registry record per active quota
(path, projectID in [1,65535], and the opaque allocation block locating the
record). The xfs quotaer implementing this registry is not among the
provided sources. -/
structure QEntry where
  path : String
  projectID : Nat
  block : String
deriving DecidableEq, Repr

/-- Modelled from the spec: quotaer state, the registry entries plus the
backend limit table, extended with a trace of the operations invoked. -/
structure QState where
  entries : List QEntry
  limits : List (Nat × String)
  trace : List QEvent
deriving DecidableEq, Repr

/-- Injected failures for the external operations (filesystem syscalls, the
privileged quota mechanism, registry I/O). `none` means the call succeeds. -/
structure Env where
  mkdirErr : GoErr
  chownErr : GoErr
  removeAllErr : GoErr
  renameErr : GoErr
  addProjectErr : GoErr
  setQuotaErr : GoErr
  unsetQuotaErr : GoErr
deriving DecidableEq, Repr

/-- An environment in which every external operation succeeds. -/
def envOk : Env :=
  { mkdirErr := none, chownErr := none, removeAllErr := none, renameErr := none,
    addProjectErr := none, setQuotaErr := none, unsetQuotaErr := none }

/-- Smallest ID in [lo, 65535] not in `used`, by fuelled linear scan. -/
def firstFree (used : List Nat) : Nat → Nat → Option Nat
  | _, 0 => none
  | lo, fuel + 1 =>
    if 65535 < lo then none
    else if lo ∈ used then firstFree used (lo + 1) fuel
    else some lo

/-- Modelled from the spec: the smallest project ID in [1, 65535] not
currently in use, `none` when the ID space is exhausted. -/
def allocID (used : List Nat) : Option Nat :=
  firstFree used 1 65536

/-- Modelled from the spec: `Registry.Allocate` as invoked through the
quotaer's `AddProject` (the xfs quotaer is not among the provided sources).
Rejects a duplicate path, can fail on registry I/O (injected), otherwise
appends an entry for the smallest free ID and returns its block. -/
def addProject (env : Env) (q : QState) (path limit : String) :
    Except String (String × Nat) × QState :=
  let q0 := { q with trace := q.trace ++ [QEvent.add path limit] }
  if q.entries.any (fun en => en.path = path) then
    (.error ("DuplicateVolume: registry already tracks path " ++ path), q0)
  else
    match env.addProjectErr with
    | some e => (.error e, q0)
    | none =>
      match allocID (q.entries.map (fun en => en.projectID)) with
      | none => (.error "CapacityExhausted: project ID space is full", q0)
      | some id =>
        let block := path ++ ":" ++ toString id
        (.ok (block, id),
         { q0 with entries := q0.entries ++ [⟨path, id, block⟩] })

/-- Modelled from the spec: `Backend.Apply` as invoked through the quotaer's
`SetQuota`; failures of the privileged mechanism are injected. -/
def setQuota (env : Env) (q : QState) (id : Nat) (path limit : String) :
    GoErr × QState :=
  let q0 := { q with trace := q.trace ++ [QEvent.set id path limit] }
  match env.setQuotaErr with
  | some e => (some e, q0)
  | none =>
    (none, { q0 with limits := (q0.limits.filter (fun l => l.1 ≠ id)) ++ [(id, limit)] })

/-- Modelled from the spec: `Backend.Clear` as invoked through the quotaer's
`UnsetQuota`; failures of the privileged mechanism are injected. -/
def unsetQuota (env : Env) (q : QState) (id : Nat) : GoErr × QState :=
  let q0 := { q with trace := q.trace ++ [QEvent.unset id] }
  match env.unsetQuotaErr with
  | some e => (some e, q0)
  | none =>
    (none, { q0 with limits := q0.limits.filter (fun l => l.1 ≠ id) })

/-- Modelled from the spec: `Registry.Release` as invoked through the
quotaer's `RemoveProject`: removes the entry identified by `block`
(cross-checked against `id`); fails with NotFound when no such entry
exists. -/
def removeProject (env : Env) (q : QState) (block : String) (id : Nat) :
    GoErr × QState :=
  let q0 := { q with trace := q.trace ++ [QEvent.remove block id] }
  if q.entries.any (fun en => en.block = block ∧ en.projectID = id) then
    (none,
     { q0 with entries :=
         q0.entries.filter (fun en => ¬(en.block = block ∧ en.projectID = id)) })
  else
    (some ("NotFound: no registry entry for block " ++ block), q0)

/-- Filesystem state: the set of directory paths that exist. -/
structure FS where
  dirs : List String
deriving DecidableEq, Repr

/-- Models the success of Go `os.Stat`: whether the path exists. -/
def statExists (fs : FS) (p : String) : Bool :=
  fs.dirs.contains p

/-- Models Go `os.MkdirAll(p, 0777)`: failures injected, otherwise `p`
exists afterwards. -/
def mkdirAll (env : Env) (fs : FS) (p : String) : GoErr × FS :=
  match env.mkdirErr with
  | some e => (some e, fs)
  | none =>
    (none, { dirs := if fs.dirs.contains p then fs.dirs else fs.dirs ++ [p] })

/-- Models Go `os.Chown`: failures injected, no modelled state effect. -/
def chown (env : Env) (p : String) (uid gid : Int) : GoErr :=
  env.chownErr

/-- Whether the second character list starts with the first. -/
def listStartsWith : List Char → List Char → Bool
  | [], _ => true
  | _ :: _, [] => false
  | a :: as_, b :: bs => a = b ∧ listStartsWith as_ bs

/-- Models Go `os.RemoveAll(p)`: removes `p` and everything below it;
succeeds when `p` is absent. -/
def removeAllFS (env : Env) (fs : FS) (p : String) : GoErr × FS :=
  match env.removeAllErr with
  | some e => (some e, fs)
  | none =>
    (none, { dirs := fs.dirs.filter (fun d => ¬(d = p ∨ listStartsWith (p ++ "/").data d.data)) })

/-- Models Go `os.Rename`: fails when the source is absent, otherwise moves
it (failures also injected). -/
def renameFS (env : Env) (fs : FS) (oldPath newPath : String) : GoErr × FS :=
  if ¬ fs.dirs.contains oldPath then
    (some ("rename " ++ oldPath ++ ": no such file or directory"), fs)
  else
    match env.renameErr with
    | some e => (some e, fs)
    | none =>
      (none, { dirs := fs.dirs.map (fun d => if d = oldPath then newPath else d) })

/-- Program constants from provisioner.go. -/
def annProjectBlock : String := "Project_block"

/-- Program constant: the PV project quota id key from provisioner.go. -/
def annProjectID : String := "Project_Id"

/-- Program constant: the local mount path from provisioner.go. -/
def mountPath : String := "/nfs"

/-- Program constant: the uid label key from provisioner.go. -/
def labelUid : String := "uid"

/-- Program constant: the gid label key from provisioner.go. -/
def labelGid : String := "gid"

/-- Program constant: the directory-name label key from provisioner.go. -/
def labelDirectoryName : String := "nfs-directory-name"

/-- The claim's PersistentVolumeClaim fields read by the provisioner. -/
structure PVC where
  ns : String
  name : String
  labels : List (String × String)
  accessModes : List String
  selector : Option Unit
  requestStorage : Int
deriving DecidableEq, Repr

/-- The VolumeOptions fields read by Provision. -/
structure VolumeOptions where
  pvName : String
  pvc : PVC
  reclaimPolicy : String
  mountOptions : List String
deriving DecidableEq, Repr

/-- The PersistentVolume fields built by Provision and read by Delete. -/
structure PersistentVolume where
  name : String
  annotations : List (String × String)
  storageClassName : String
  reclaimPolicy : String
  accessModes : List String
  mountOptions : List String
  capacity : Int
  server : String
  nfsPath : String
  readOnly : Bool
deriving DecidableEq, Repr

/-- A StorageClass as read by Delete: only its parameters matter here. -/
structure StorageClass where
  parameters : List (String × String)
deriving DecidableEq, Repr

/-- The nfsProvisioner: the Kubernetes client is modelled as an optional
class fetcher (`none` is a nil client), with the NFS server and export
path. -/
structure Provisioner where
  client : Option (String → Except String StorageClass)
  server : String
  path : String

/-- Models the k8s helper GetPersistentVolumeClass: beta annotation key
first, else the spec field. -/
def GetPersistentVolumeClass (volume : PersistentVolume) : String :=
  match lookupStr volume.annotations "volume.beta.kubernetes.io/storage-class" with
  | some s => s
  | none => volume.storageClassName

/-- getClassForVolume from provisioner.go. -/
def getClassForVolume (p : Provisioner) (volume : PersistentVolume) :
    Except String StorageClass :=
  match p.client with
  | none => .error "Cannot get kube client"
  | some fetch =>
    let className := GetPersistentVolumeClass volume
    if className = "" then .error "Volume has no storage class"
    else fetch className

/-- AccessModesContains from provisioner.go. -/
def AccessModesContains (modes : List String) (mode : String) : Bool :=
  modes.any (fun m => m = mode)

/-- AccessModesContainedInAll from provisioner.go. -/
def AccessModesContainedInAll (indexedModes requestedModes : List String) : Bool :=
  requestedModes.all (fun mode => AccessModesContains indexedModes mode)

/-- getAccessModes from provisioner.go. -/
def getAccessModes : List String :=
  ["ReadWriteOnce", "ReadOnlyMany", "ReadWriteMany"]

/-- The uid/gid label handling of Provision (lines 142-156): default 0 when
the label is empty, otherwise strconv.Atoi with the parse error wrapped. -/
def parseOwner (label which : String) : Except String Int :=
  if label = "" then .ok 0
  else
    match goAtoi label with
    | .ok n => .ok n
    | .error e => .error ("unable to parse " ++ which ++ " " ++ label ++ " with " ++ e)

/-- The volume directory name Provision derives (lines 113-121):
namespace-claimName-pvName, overridden by the nfs-directory-name label. -/
def derivedPVName (opts : VolumeOptions) : String :=
  let pvName0 := String.intercalate "-" [opts.pvc.ns, opts.pvc.name, opts.pvName]
  let directoryName := goMapIndex opts.pvc.labels labelDirectoryName
  if directoryName ≠ "" then directoryName else pvName0

/-- createQuota from provisioner.go: AddProject, then SetQuota; on SetQuota
failure RemoveProject is invoked with its result discarded and the SetQuota
error is returned. -/
def createQuota (p : Provisioner) (env : Env) (q : QState)
    (directory : String) (capacity : Int) :
    Except String (String × Nat) × QState :=
  let path := filepathJoin p.path directory
  let limit := toString capacity
  match addProject env q path limit with
  | (.error e, q1) =>
    (.error ("error adding project for path " ++ path ++ ": " ++ e), q1)
  | (.ok (block, projectID), q1) =>
    match setQuota env q1 projectID path limit with
    | (some e, q2) =>
      let q3 := (removeProject env q2 block projectID).2
      (.error ("error setting quota for path " ++ path ++ ": " ++ e), q3)
    | (none, q2) => (.ok (block, projectID), q2)

/-- getBlockAndID from provisioner.go: both annotations must be present;
the ParseUint error on the id string is discarded (`id, _ := ...`). -/
def getBlockAndID (volume : PersistentVolume) (annBlock annID : String) :
    Except String (String × Nat) :=
  match lookupStr volume.annotations annBlock with
  | none => .error ("PV does not have an annotation with key " ++ annBlock)
  | some block =>
    match lookupStr volume.annotations annID with
    | none => .error ("PV does not have an annotation " ++ annID)
    | some idStr =>
      .ok (block, goParseUint16Value idStr)

/-- deleteQuota from provisioner.go: recover block/id from annotations,
UnsetQuota, then RemoveProject; each failure returns immediately. -/
def deleteQuota (env : Env) (q : QState) (volume : PersistentVolume) :
    GoErr × QState :=
  match getBlockAndID volume annProjectBlock annProjectID with
  | .error e =>
    (some ("error getting block &/or id from annotations: " ++ e), q)
  | .ok (block, projectID) =>
    match unsetQuota env q projectID with
    | (some e, q1) =>
      (some ("removed quota project from the project file but error unsetting the quota: " ++ e), q1)
    | (none, q1) =>
      match removeProject env q1 block projectID with
      | (some e, q2) =>
        (some ("error removing the quota project from the projects file: " ++ e), q2)
      | (none, q2) => (none, q2)

/-- The outcome of a Provision call: a returned PersistentVolume, a returned
error, or a runtime panic. -/
inductive POutcome where
  | ok (pv : PersistentVolume)
  | err (msg : String)
  | panic
deriving DecidableEq, Repr

/-- Provision from provisioner.go.  In the branch where os.Stat reports the
directory already exists the stat error is nil, so the code's
`err.Error()` call dereferences a nil error value: that branch is a
runtime panic, modelled as `POutcome.panic`. -/
def Provision (p : Provisioner) (env : Env) (fs : FS) (q : QState)
    (opts : VolumeOptions) : POutcome × FS × QState :=
  if ¬ AccessModesContainedInAll getAccessModes opts.pvc.accessModes then
    (.err ("invalid AccessModes " ++ String.intercalate "," opts.pvc.accessModes ++
           ": only AccessModes " ++ String.intercalate "," getAccessModes ++
           " are supported"), fs, q)
  else if opts.pvc.selector.isSome then
    (.err "claim Selector is not supported", fs, q)
  else
    let pvName := derivedPVName opts
    let fullPath := filepathJoin mountPath pvName
    if statExists fs fullPath then
      (.panic, fs, q)
    else
      match mkdirAll env fs fullPath with
      | (some e, fs1) =>
        (.err ("unable to create directory to provision new pv: " ++ e), fs1, q)
      | (none, fs1) =>
        let uidFromLabel := goMapIndex opts.pvc.labels labelUid
        let gidFromLabel := goMapIndex opts.pvc.labels labelGid
        match parseOwner uidFromLabel "uid" with
        | .error e => (.err e, fs1, q)
        | .ok uid =>
          match parseOwner gidFromLabel "gid" with
          | .error e => (.err e, fs1, q)
          | .ok gid =>
            match chown env fullPath uid gid with
            | some e =>
              (.err ("unable to chown " ++ toString uid ++ ":" ++ toString gid ++
                     " to provision new pv with err " ++ e), fs1, q)
            | none =>
              let exportPath := filepathJoin p.path pvName
              match createQuota p env q pvName opts.pvc.requestStorage with
              | (.error e, q1) =>
                let fs2 := (removeAllFS env fs1 exportPath).2
                (.err ("error creating quota for volume: " ++ e), fs2, q1)
              | (.ok (projectBlock, projectID), q1) =>
                (.ok { name := opts.pvName,
                       annotations := [(annProjectBlock, projectBlock),
                                       (annProjectID, toString projectID)],
                       storageClassName := "",
                       reclaimPolicy := opts.reclaimPolicy,
                       accessModes := opts.pvc.accessModes,
                       mountOptions := opts.mountOptions,
                       capacity := opts.pvc.requestStorage,
                       server := p.server,
                       nfsPath := exportPath,
                       readOnly := false }, fs1, q1)

/-- The archive continuation of Delete (lines 224-231): deleteQuota, then
rename the directory to its archived-<name> sibling. -/
def deleteArchive (env : Env) (fs : FS) (q : QState)
    (volume : PersistentVolume) (pvName oldPath : String) : GoErr × FS × QState :=
  match deleteQuota env q volume with
  | (some e, q1) =>
    (some ("deleted the volume backing path and export but error deleting quota: " ++ e),
     fs, q1)
  | (none, q1) =>
    let archivePath := filepathJoin mountPath ("archived-" ++ pvName)
    let r := renameFS env fs oldPath archivePath
    (r.1, r.2, q1)

/-- Delete from provisioner.go: success when the directory is already
absent; archiveOnDelete=false removes the directory and returns; otherwise
(absent or true) deleteQuota then archive-rename. -/
def Delete (p : Provisioner) (env : Env) (fs : FS) (q : QState)
    (volume : PersistentVolume) : GoErr × FS × QState :=
  let pvName := filepathBase volume.nfsPath
  let oldPath := filepathJoin mountPath pvName
  if ¬ statExists fs oldPath then
    (none, fs, q)
  else
    match getClassForVolume p volume with
    | .error e => (some e, fs, q)
    | .ok storageClass =>
      match lookupStr storageClass.parameters "archiveOnDelete" with
      | some v =>
        match goParseBool v with
        | .error e => (some e, fs, q)
        | .ok archiveBool =>
          if ¬ archiveBool then
            let r := removeAllFS env fs oldPath
            (r.1, r.2, q)
          else
            deleteArchive env fs q volume pvName oldPath
      | none =>
        deleteArchive env fs q volume pvName oldPath

/-- An empty quotaer state. -/
def qEmpty : QState := { entries := [], limits := [], trace := [] }

/-- A provisioner with a nil Kubernetes client, exporting /export. -/
def pA : Provisioner := { client := none, server := "srv", path := "/export" }

/-- A provisioner whose client resolves every class name to `sc`. -/
def withClass (sc : StorageClass) : Provisioner :=
  { client := some (fun _ => .ok sc), server := "srv", path := "/export" }

/-- A plain provisioning request: namespace default, claim name claim,
PV name pvc-1, no labels, 1 GiB. -/
def optsA : VolumeOptions :=
  { pvName := "pvc-1",
    pvc := { ns := "default", name := "claim", labels := [],
             accessModes := ["ReadWriteMany"], selector := none,
             requestStorage := 1073741824 },
    reclaimPolicy := "Delete", mountOptions := [] }

/-- The plain request with an unparseable uid label. -/
def optsB : VolumeOptions :=
  { optsA with pvc := { optsA.pvc with labels := [("uid", "abc")] } }

/-- The plain request with a directory-name override label. -/
def optsD : VolumeOptions :=
  { optsA with pvc := { optsA.pvc with labels := [("nfs-directory-name", "data")] } }

/-- A storage class with archiveOnDelete=false. -/
def scFalse : StorageClass := { parameters := [("archiveOnDelete", "false")] }

/-- A storage class with an unparseable archiveOnDelete value. -/
def scBad : StorageClass := { parameters := [("archiveOnDelete", "maybe")] }

/-- A storage class without the archiveOnDelete parameter. -/
def scNone : StorageClass := { parameters := [] }

/-- A provisioned volume with quota annotations block=blk, id=1. -/
def volC : PersistentVolume :=
  { name := "pvc-1",
    annotations := [("Project_block", "blk"), ("Project_Id", "1")],
    storageClassName := "sc", reclaimPolicy := "Delete",
    accessModes := ["ReadWriteMany"], mountOptions := [],
    capacity := 5, server := "srv", nfsPath := "/export/v1", readOnly := false }

/-- A volume whose Project_Id annotation is unparseable. -/
def volBadID : PersistentVolume :=
  { volC with annotations := [("Project_block", "b"), ("Project_Id", "xyz")] }

/-- Quotaer state holding exactly volC's registry entry and limit. -/
def qC : QState :=
  { entries := [⟨"/export/v1", 1, "blk"⟩], limits := [(1, "5")], trace := [] }

/-- Filesystem containing volC's backing directory. -/
def fsC : FS := { dirs := ["/nfs/v1"] }

/-- Environment in which the backend apply (SetQuota) fails. -/
def envSetFail : Env := { envOk with setQuotaErr := some "boom" }

/-- Environment in which the backend clear (UnsetQuota) fails. -/
def envUnsetFail : Env := { envOk with unsetQuotaErr := some "boom" }

/-- A directory created by a successful mkdirAll exists afterwards. -/
theorem mkdirAll_creates (env : Env) (fs fs1 : FS) (p : String)
    (h : mkdirAll env fs p = (none, fs1)) : statExists fs1 p = true := by
  unfold mkdirAll at h
  cases henv : env.mkdirErr with
  | some e => rw [henv] at h; simp at h
  | none =>
    rw [henv] at h
    simp only [Prod.mk.injEq, true_and] at h
    subst h
    simp only [statExists]
    by_cases hc : p ∈ fs.dirs <;> simp [hc]

/-- Claim C5: Delete on a volume whose backing directory is absent returns
nil without touching the filesystem or the quotaer state, hence without
invoking the quota backend or the registry. -/
theorem delete_absent_noop (p : Provisioner) (env : Env) (fs : FS) (q : QState)
    (volume : PersistentVolume)
    (h : statExists fs (filepathJoin mountPath (filepathBase volume.nfsPath)) = false) :
    Delete p env fs q volume = (none, fs, q) := by
  unfold Delete
  simp [h]

/-- Claim C5 witness: a concrete Delete on an empty filesystem. -/
theorem delete_absent_noop_witness :
    Delete (withClass scFalse) envOk ⟨[]⟩ qC volC = (none, ⟨[]⟩, qC) :=
  delete_absent_noop (withClass scFalse) envOk ⟨[]⟩ qC volC (by decide)

/-- Claim C6: at the failing input (the derived directory
/nfs/default-claim-pvc-1 already exists, so os.Stat returns a nil error)
Provision panics evaluating err.Error() on that nil error instead of
returning the intended already-exists error; filesystem and quotaer state
are untouched. -/
theorem provision_existing_dir_panics :
    Provision pA envOk ⟨["/nfs/default-claim-pvc-1"]⟩ qEmpty optsA =
      (POutcome.panic, ⟨["/nfs/default-claim-pvc-1"]⟩, qEmpty) := by
  decide

/-- Claim C10: at the failing input (the overridden directory /nfs/data
already exists, so the stat step reports no error) Provision does not
return a (volume, error) pair: the already-exists branch dereferences the
nil stat error and panics. -/
theorem provision_not_total_panics :
    Provision pA envOk ⟨["/nfs/data"]⟩ qEmpty optsD =
      (POutcome.panic, ⟨["/nfs/data"]⟩, qEmpty) := by
  decide

/-- Claim C8 counterexample: with both annotations present but the
Project_Id value unparseable, getBlockAndID succeeds with projectID 0
instead of failing: the parse error is discarded, refuting validation
before use. -/
theorem getBlockAndID_unvalidated_cex :
    getBlockAndID volBadID annProjectBlock annProjectID = .ok ("b", 0) := by
  rfl

/-- Claim C8 (amended): getBlockAndID reads only the two annotations,
failing when either is absent; when both are present it returns the block
verbatim and the Go ParseUint value of the id string with the parse error
discarded (syntax errors give 0, range errors 65535). -/
theorem getBlockAndID_spec (volume : PersistentVolume) (annB annI : String) :
    (lookupStr volume.annotations annB = none →
      getBlockAndID volume annB annI =
        .error ("PV does not have an annotation with key " ++ annB))
    ∧ (∀ b, lookupStr volume.annotations annB = some b →
        lookupStr volume.annotations annI = none →
        getBlockAndID volume annB annI =
          .error ("PV does not have an annotation " ++ annI))
    ∧ (∀ b s, lookupStr volume.annotations annB = some b →
        lookupStr volume.annotations annI = some s →
        getBlockAndID volume annB annI = .ok (b, goParseUint16Value s)) := by
  refine ⟨?_, ?_, ?_⟩
  · intro h1
    unfold getBlockAndID
    rw [h1]
  · intro b h1 h2
    unfold getBlockAndID
    rw [h1, h2]
  · intro b s h1 h2
    unfold getBlockAndID
    rw [h1, h2]

/-- Claim C8 witness: the amended theorem applied at a volume whose id
annotation is unparseable. -/
theorem getBlockAndID_spec_witness :
    getBlockAndID volBadID annProjectBlock annProjectID =
      .ok ("b", goParseUint16Value "xyz") :=
  (getBlockAndID_spec volBadID annProjectBlock annProjectID).2.2 "b" "xyz"
    (by decide) (by decide)

/-- Claim C3 counterexample: with the backend clear failing, deleteQuota on
a concrete volume returns only the clear error and never invokes the
registry release (no remove event in the trace, the registry entry stays),
refuting both the continued release attempt and the error joining. -/
theorem deleteQuota_clearFail_cex :
    deleteQuota envUnsetFail qC volC =
      (some "removed quota project from the project file but error unsetting the quota: boom",
       { entries := [⟨"/export/v1", 1, "blk"⟩], limits := [(1, "5")],
         trace := [QEvent.unset 1] })
    ∧ QEvent.remove "blk" 1 ∉ (deleteQuota envUnsetFail qC volC).2.trace := by
  constructor
  · rfl
  · decide

/-- Claim C3 (amended): deleteQuota clears the backend limit before
releasing the registry entry, but a clear failure returns immediately with
only the clear error and the registry release is not attempted; on a
successful clear the release follows it. -/
theorem deleteQuota_clear_then_release (env : Env) (q : QState)
    (volume : PersistentVolume) (block : String) (id : Nat)
    (hg : getBlockAndID volume annProjectBlock annProjectID = .ok (block, id)) :
    (∀ e, env.unsetQuotaErr = some e →
      deleteQuota env q volume =
        (some ("removed quota project from the project file but error unsetting the quota: " ++ e),
         { q with trace := q.trace ++ [QEvent.unset id] }))
    ∧ (env.unsetQuotaErr = none →
      (deleteQuota env q volume).2.trace =
        q.trace ++ [QEvent.unset id, QEvent.remove block id]) := by
  constructor
  · intro e he
    simp only [deleteQuota, hg, unsetQuota, he]
  · intro he
    simp only [deleteQuota, hg, unsetQuota, he, removeProject]
    split
    next e q2 heq =>
      split at heq <;> simp only [Prod.mk.injEq] at heq
      · exact absurd heq.1 (by simp)
      · rw [← heq.2]
        simp
    next q2 heq =>
      split at heq <;> simp only [Prod.mk.injEq] at heq
      · rw [← heq.2]
        simp
      · exact absurd heq.1 (by simp)

/-- Claim C3 witness: the amended theorem applied at a concrete clear
failure. -/
theorem deleteQuota_clear_then_release_witness :
    deleteQuota envUnsetFail qC volC =
      (some ("removed quota project from the project file but error unsetting the quota: " ++ "boom"),
       { qC with trace := qC.trace ++ [QEvent.unset 1] }) :=
  (deleteQuota_clear_then_release envUnsetFail qC volC "blk" 1 (by rfl)).1 "boom" (by rfl)

/-- Claim C2 counterexample: Delete on an existing directory with
archiveOnDelete=false removes the directory but returns with the quotaer
state untouched: the registry still holds the volume's entry and limit, so
the quota is not released. -/
theorem delete_noArchive_cex :
    Delete (withClass scFalse) envOk fsC qC volC = (none, ⟨[]⟩, qC)
    ∧ qC.entries = [⟨"/export/v1", 1, "blk"⟩]
    ∧ qC.limits = [(1, "5")] := by
  refine ⟨?_, rfl, rfl⟩
  rfl

/-- Claim C2 (amended): when the class resolves archiveOnDelete to false,
Delete recursively removes the directory and returns without touching the
quotaer (no quota release); quota teardown happens only on the archive
path. -/
theorem delete_noArchive_skips_quota (p : Provisioner) (env : Env) (fs : FS)
    (q : QState) (volume : PersistentVolume) (sc : StorageClass) (v : String)
    (hex : statExists fs (filepathJoin mountPath (filepathBase volume.nfsPath)) = true)
    (hc : getClassForVolume p volume = .ok sc)
    (hv : lookupStr sc.parameters "archiveOnDelete" = some v)
    (hb : goParseBool v = .ok false) :
    Delete p env fs q volume =
      ((removeAllFS env fs (filepathJoin mountPath (filepathBase volume.nfsPath))).1,
       (removeAllFS env fs (filepathJoin mountPath (filepathBase volume.nfsPath))).2, q) := by
  simp only [Delete, hex, hc, hv, hb]
  simp

/-- Claim C2 witness: the amended theorem applied at a concrete volume. -/
theorem delete_noArchive_skips_quota_witness :
    Delete (withClass scFalse) envOk fsC qC volC =
      ((removeAllFS envOk fsC (filepathJoin mountPath (filepathBase volC.nfsPath))).1,
       (removeAllFS envOk fsC (filepathJoin mountPath (filepathBase volC.nfsPath))).2, qC) :=
  delete_noArchive_skips_quota (withClass scFalse) envOk fsC qC volC scFalse "false"
    (by rfl) (by rfl) (by rfl) (by rfl)

/-- Claim C7: in Delete, an absent archiveOnDelete parameter falls through
to the archive continuation (default true), while a present but
unparseable value propagates the parse error. -/
theorem delete_archive_policy (p : Provisioner) (env : Env) (fs : FS)
    (q : QState) (volume : PersistentVolume) (sc : StorageClass)
    (hex : statExists fs (filepathJoin mountPath (filepathBase volume.nfsPath)) = true)
    (hc : getClassForVolume p volume = .ok sc) :
    (lookupStr sc.parameters "archiveOnDelete" = none →
      Delete p env fs q volume =
        deleteArchive env fs q volume (filepathBase volume.nfsPath)
          (filepathJoin mountPath (filepathBase volume.nfsPath)))
    ∧ (∀ v e, lookupStr sc.parameters "archiveOnDelete" = some v →
        goParseBool v = .error e →
        Delete p env fs q volume = (some e, fs, q)) := by
  constructor
  · intro hv
    simp only [Delete, hex, hc, hv]
    simp
  · intro v e hv hb
    simp only [Delete, hex, hc, hv, hb]
    simp

/-- Claim C7 witness: a class without the parameter archives, and a class
with an unparseable value propagates the parse error. -/
theorem delete_archive_policy_witness :
    Delete (withClass scNone) envOk fsC qC volC =
      deleteArchive envOk fsC qC volC (filepathBase volC.nfsPath)
        (filepathJoin mountPath (filepathBase volC.nfsPath))
    ∧ Delete (withClass scBad) envOk fsC qC volC =
        (some "strconv.ParseBool: parsing maybe: invalid syntax", fsC, qC) :=
  ⟨(delete_archive_policy (withClass scNone) envOk fsC qC volC scNone
      (by rfl) (by rfl)).1 (by rfl),
   (delete_archive_policy (withClass scBad) envOk fsC qC volC scBad
      (by rfl) (by rfl)).2 "maybe" "strconv.ParseBool: parsing maybe: invalid syntax"
      (by rfl) (by rfl)⟩

/-- Claim C1 counterexample: a Provision whose uid label parse fails after
directory creation returns the parse error while the created directory
/nfs/default-claim-pvc-1 is still present: no removal happens. -/
theorem provision_parse_fail_leaves_dir_cex :
    (Provision pA envOk ⟨[]⟩ qEmpty optsB).1 =
      POutcome.err "unable to parse uid abc with strconv.Atoi: parsing abc: invalid syntax"
    ∧ (Provision pA envOk ⟨[]⟩ qEmpty optsB).2.1 = ⟨["/nfs/default-claim-pvc-1"]⟩ :=
  ⟨rfl, rfl⟩

/-- Claim C1 (amended): after directory creation, uid/gid parse failures
and chown failures return their error with the created directory left in
place; only a quota-establishment failure triggers a removal, and that
removal targets the export-side path p.path/pvName rather than the created
mount-side directory. -/
theorem provision_post_create_failures (p : Provisioner) (env : Env) (fs fs1 : FS)
    (q : QState) (opts : VolumeOptions)
    (hmodes : AccessModesContainedInAll getAccessModes opts.pvc.accessModes = true)
    (hsel : opts.pvc.selector = none)
    (hstat : statExists fs (filepathJoin mountPath (derivedPVName opts)) = false)
    (hmk : mkdirAll env fs (filepathJoin mountPath (derivedPVName opts)) = (none, fs1)) :
    (∀ e, parseOwner (goMapIndex opts.pvc.labels labelUid) "uid" = .error e →
       Provision p env fs q opts = (.err e, fs1, q)
       ∧ statExists fs1 (filepathJoin mountPath (derivedPVName opts)) = true)
    ∧ (∀ uid e, parseOwner (goMapIndex opts.pvc.labels labelUid) "uid" = .ok uid →
        parseOwner (goMapIndex opts.pvc.labels labelGid) "gid" = .error e →
        Provision p env fs q opts = (.err e, fs1, q)
        ∧ statExists fs1 (filepathJoin mountPath (derivedPVName opts)) = true)
    ∧ (∀ uid gid e, parseOwner (goMapIndex opts.pvc.labels labelUid) "uid" = .ok uid →
        parseOwner (goMapIndex opts.pvc.labels labelGid) "gid" = .ok gid →
        env.chownErr = some e →
        Provision p env fs q opts =
          (.err ("unable to chown " ++ toString uid ++ ":" ++ toString gid ++
                 " to provision new pv with err " ++ e), fs1, q)
        ∧ statExists fs1 (filepathJoin mountPath (derivedPVName opts)) = true)
    ∧ (∀ uid gid e q1, parseOwner (goMapIndex opts.pvc.labels labelUid) "uid" = .ok uid →
        parseOwner (goMapIndex opts.pvc.labels labelGid) "gid" = .ok gid →
        env.chownErr = none →
        createQuota p env q (derivedPVName opts) opts.pvc.requestStorage = (.error e, q1) →
        Provision p env fs q opts =
          (.err ("error creating quota for volume: " ++ e),
           (removeAllFS env fs1 (filepathJoin p.path (derivedPVName opts))).2, q1)
        ∧ statExists fs1 (filepathJoin mountPath (derivedPVName opts)) = true) := by
  refine ⟨?_, ?_, ?_, ?_⟩
  · intro e hu
    refine ⟨?_, mkdirAll_creates env fs fs1 _ hmk⟩
    simp only [Provision, hmodes, hsel, hstat, hmk, hu]
    simp
  · intro uid e hu hg
    refine ⟨?_, mkdirAll_creates env fs fs1 _ hmk⟩
    simp only [Provision, hmodes, hsel, hstat, hmk, hu, hg]
    simp
  · intro uid gid e hu hg hch
    refine ⟨?_, mkdirAll_creates env fs fs1 _ hmk⟩
    simp only [Provision, hmodes, hsel, hstat, hmk, hu, hg, chown, hch]
    simp
  · intro uid gid e q1 hu hg hch hcq
    refine ⟨?_, mkdirAll_creates env fs fs1 _ hmk⟩
    simp only [Provision, hmodes, hsel, hstat, hmk, hu, hg, chown, hch, hcq]
    simp

/-- Claim C1 witness: the amended theorem applied at the concrete
uid-parse failure. -/
theorem provision_post_create_failures_witness :
    Provision pA envOk ⟨[]⟩ qEmpty optsB =
      (.err "unable to parse uid abc with strconv.Atoi: parsing abc: invalid syntax",
       ⟨["/nfs/default-claim-pvc-1"]⟩, qEmpty)
    ∧ statExists ⟨["/nfs/default-claim-pvc-1"]⟩
        (filepathJoin mountPath (derivedPVName optsB)) = true :=
  (provision_post_create_failures pA envOk ⟨[]⟩ ⟨["/nfs/default-claim-pvc-1"]⟩
      qEmpty optsB (by rfl) (by rfl) (by rfl) (by rfl)).1
    "unable to parse uid abc with strconv.Atoi: parsing abc: invalid syntax" (by rfl)

/-- Claim C4: when AddProject succeeds and SetQuota fails, createQuota
invokes the compensating RemoveProject (its result discarded, so a release
failure is never re-raised), returns the apply error, and afterwards the
registry holds no entry for the volume's path. -/
theorem createQuota_applyFail_rollback (p : Provisioner) (env : Env) (q q1 : QState)
    (directory : String) (capacity : Int) (block : String) (id : Nat) (e : String)
    (hadd : addProject env q (filepathJoin p.path directory) (toString capacity) =
      (.ok (block, id), q1))
    (hset : env.setQuotaErr = some e) :
    (createQuota p env q directory capacity).1 =
      .error ("error setting quota for path " ++ filepathJoin p.path directory ++ ": " ++ e)
    ∧ QEvent.remove block id ∈ (createQuota p env q directory capacity).2.trace
    ∧ ∀ en ∈ (createQuota p env q directory capacity).2.entries,
        en.path ≠ filepathJoin p.path directory := by
  have hadd' := hadd
  unfold addProject at hadd'
  split at hadd'
  · simp at hadd'
  · rename_i hdup
    cases henv : env.addProjectErr with
    | some e2 => rw [henv] at hadd'; simp at hadd'
    | none =>
      rw [henv] at hadd'
      cases halloc : allocID (q.entries.map fun en => en.projectID) with
      | none => rw [halloc] at hadd'; simp at hadd'
      | some id2 =>
        rw [halloc] at hadd'
        simp only [Prod.mk.injEq, Except.ok.injEq] at hadd'
        obtain ⟨⟨hblock, hid⟩, hq1⟩ := hadd'
        subst hid
        subst hblock
        subst hq1
        have hcq : createQuota p env q directory capacity =
            (.error ("error setting quota for path " ++ filepathJoin p.path directory ++ ": " ++ e),
             (removeProject env
               { entries := q.entries ++
                   [⟨filepathJoin p.path directory, id2,
                     filepathJoin p.path directory ++ ":" ++ toString id2⟩],
                 limits := q.limits,
                 trace := (q.trace ++ [QEvent.add (filepathJoin p.path directory) (toString capacity)]) ++
                   [QEvent.set id2 (filepathJoin p.path directory) (toString capacity)] }
               (filepathJoin p.path directory ++ ":" ++ toString id2) id2).2) := by
          simp only [createQuota, hadd, setQuota, hset]
        rw [hcq]
        have hmem : (((q.entries ++
            [⟨filepathJoin p.path directory, id2,
              filepathJoin p.path directory ++ ":" ++ toString id2⟩] : List QEntry)).any
            (fun en => decide (en.block = filepathJoin p.path directory ++ ":" ++ toString id2 ∧
              en.projectID = id2))) = true := by
          simp [List.any_eq_true]
        simp only [removeProject, hmem, if_true]
        refine ⟨trivial, ?_, ?_⟩
        · simp
        · intro en hen
          simp only [List.mem_filter] at hen
          obtain ⟨hmem', hpred⟩ := hen
          rcases List.mem_append.mp hmem' with h | h
          · simp only [List.any_eq_true] at hdup
            intro hpath
            exact hdup ⟨en, h, by simp [hpath]⟩
          · simp only [List.mem_singleton] at h
            subst h
            simp at hpred

/-- Claim C4 witness: the rollback theorem applied at a concrete failing
backend apply. -/
theorem createQuota_applyFail_rollback_witness :
    (createQuota pA envSetFail qEmpty "v1" 5).1 =
      .error ("error setting quota for path " ++ filepathJoin pA.path "v1" ++ ": " ++ "boom")
    ∧ QEvent.remove "/export/v1:1" 1 ∈ (createQuota pA envSetFail qEmpty "v1" 5).2.trace
    ∧ ∀ en ∈ (createQuota pA envSetFail qEmpty "v1" 5).2.entries,
        en.path ≠ filepathJoin pA.path "v1" :=
  createQuota_applyFail_rollback pA envSetFail qEmpty
    ⟨[⟨"/export/v1", 1, "/export/v1:1"⟩], [], [QEvent.add "/export/v1" "5"]⟩
    "v1" 5 "/export/v1:1" 1 "boom" (by rfl) (by rfl)

/-- Claim C9: every successful Provision returns a volume whose
Project_block annotation is the block and whose Project_Id annotation is
the decimal projectID returned by the quota establishment for that
volume's path. -/
theorem provision_ok_quota_annotations (p : Provisioner) (env : Env) (fs fs2 : FS)
    (q q2 : QState) (opts : VolumeOptions) (pv : PersistentVolume)
    (h : Provision p env fs q opts = (.ok pv, fs2, q2)) :
    ∃ block id,
      createQuota p env q (derivedPVName opts) opts.pvc.requestStorage = (.ok (block, id), q2)
      ∧ lookupStr pv.annotations annProjectBlock = some block
      ∧ lookupStr pv.annotations annProjectID = some (toString id) := by
  unfold Provision at h
  split at h
  · simp at h
  split at h
  · simp at h
  simp only [] at h
  split at h
  · simp at h
  split at h
  · simp at h
  split at h
  · simp at h
  split at h
  · simp at h
  split at h
  · simp at h
  split at h
  · simp at h
  rename_i pb pid q1 heq
  simp only [Prod.mk.injEq, POutcome.ok.injEq] at h
  obtain ⟨h1, h2, h3⟩ := h
  subst h3
  subst h1
  refine ⟨pb, pid, heq, ?_, ?_⟩
  · simp [lookupStr, annProjectBlock, annProjectID]
  · simp [lookupStr, annProjectBlock, annProjectID]

/-- The volume returned by the concrete successful Provision of optsA. -/
def pvA : PersistentVolume :=
  { name := "pvc-1",
    annotations := [("Project_block", "/export/default-claim-pvc-1:1"), ("Project_Id", "1")],
    storageClassName := "", reclaimPolicy := "Delete",
    accessModes := ["ReadWriteMany"], mountOptions := [],
    capacity := 1073741824, server := "srv",
    nfsPath := "/export/default-claim-pvc-1", readOnly := false }

/-- The quotaer state after the concrete successful Provision of optsA. -/
def qA : QState :=
  { entries := [⟨"/export/default-claim-pvc-1", 1, "/export/default-claim-pvc-1:1"⟩],
    limits := [(1, "1073741824")],
    trace := [QEvent.add "/export/default-claim-pvc-1" "1073741824",
              QEvent.set 1 "/export/default-claim-pvc-1" "1073741824"] }

/-- Claim C9 witness: the annotation theorem applied at a concrete
successful Provision. -/
theorem provision_ok_quota_annotations_witness :
    ∃ block id,
      createQuota pA envOk qEmpty (derivedPVName optsA) optsA.pvc.requestStorage =
        (.ok (block, id), qA)
      ∧ lookupStr pvA.annotations annProjectBlock = some block
      ∧ lookupStr pvA.annotations annProjectID = some (toString id) :=
  provision_ok_quota_annotations pA envOk ⟨[]⟩ ⟨["/nfs/default-claim-pvc-1"]⟩
    qEmpty qA optsA pvA (by rfl)
